import Mathlib

/-!
Verification of the BBR configuration subsystem of
gateway-api-inference-extension: server options (pkg/bbr/server/options.go),
logging options (pkg/common/observability/logging), and the repeatable
`--plugin <type>:<name>[:<json>]` flag value (pkg/bbr/config).

Go machine integers are modelled as `Int` (Go `int`), with the `int8`
conversion made explicit where the source performs one.  Go errors are
modelled as an inductive `GoError`; a Go function returning `error` returns
`Option GoError` (`none` = nil error).  Methods with pointer receivers that
may mutate the receiver return the updated receiver explicitly.  A Go nil
pointer dereference (panic) is modelled by an `Option` result being `none`.
-/

namespace BBR

/-! ### JSON validity (third segment of a plugin spec)

Modelled from the spec: the plugin-spec parser's third segment "is parsed as
JSON" and parsing "fails with ParseError(invalid JSON parameters) on
malformed JSON".  The parsing code itself (pkg/bbr/config) is not among the
provided sources, so the JSON grammar below follows the standard JSON value
grammar used by Go's encoding/json: objects, arrays, strings with escapes,
numbers, true/false/null, with insignificant whitespace. -/

def lbrace : Char := Char.ofNat 123

def rbrace : Char := Char.ofNat 125

def isWsChar (c : Char) : Bool :=
  c = ' ' || c = '\t' || c = '\n' || c = '\r'

def skipWs : List Char → List Char
  | [] => []
  | c :: cs => if isWsChar c then skipWs cs else c :: cs

def isHexDig (c : Char) : Bool :=
  c.isDigit || ('a' ≤ c && c ≤ 'f') || ('A' ≤ c && c ≤ 'F')

/-- Consume a JSON string body, the opening quote already consumed; returns
the input remaining after the closing quote. -/
def parseStringBody : List Char → Option (List Char)
  | [] => none
  | '"' :: cs => some cs
  | '\\' :: 'u' :: h1 :: h2 :: h3 :: h4 :: cs =>
      if isHexDig h1 && isHexDig h2 && isHexDig h3 && isHexDig h4 then
        parseStringBody cs
      else none
  | '\\' :: e :: cs =>
      if e = '"' || e = '\\' || e = '/' || e = 'b' || e = 'f' || e = 'n'
          || e = 'r' || e = 't' then
        parseStringBody cs
      else none
  | c :: cs => if c.toNat < 32 then none else parseStringBody cs

/-- Consume the integer part of a JSON number (after any leading minus). -/
def parseIntPart : List Char → Option (List Char)
  | [] => none
  | '0' :: cs => some cs
  | c :: cs => if c.isDigit then some (cs.dropWhile Char.isDigit) else none

/-- Consume an optional fraction part. -/
def parseFracPart : List Char → Option (List Char)
  | '.' :: c :: cs =>
      if c.isDigit then some (cs.dropWhile Char.isDigit) else none
  | '.' :: [] => none
  | cs => some cs

/-- Consume an optional exponent part. -/
def parseExpPart : List Char → Option (List Char)
  | [] => some []
  | e :: rest =>
      if e = 'e' || e = 'E' then
        match rest with
        | [] => none
        | s :: cs =>
            if s = '+' || s = '-' then
              match cs with
              | [] => none
              | d :: ds => if d.isDigit then some (ds.dropWhile Char.isDigit) else none
            else if s.isDigit then some (cs.dropWhile Char.isDigit)
            else none
      else some (e :: rest)

def parseNumber (cs : List Char) : Option (List Char) :=
  match cs with
  | '-' :: rest => (parseIntPart rest).bind fun r => (parseFracPart r).bind parseExpPart
  | _ => (parseIntPart cs).bind fun r => (parseFracPart r).bind parseExpPart

/-- Expect the given literal characters at the head of the input. -/
def expectChars : List Char → List Char → Option (List Char)
  | [], cs => some cs
  | _ :: _, [] => none
  | e :: es, c :: cs => if c = e then expectChars es cs else none

mutual

/-- Consume one JSON value; the input must start with its first character
(leading whitespace already skipped).  Fuel bounds the recursion depth. -/
def parseValue : Nat → List Char → Option (List Char)
  | 0, _ => none
  | fuel + 1, cs =>
      match cs with
      | [] => none
      | c :: cs2 =>
          if c = '"' then parseStringBody cs2
          else if c = lbrace then
            match skipWs cs2 with
            | [] => none
            | d :: cs4 =>
                if d = rbrace then some cs4
                else parseMembers fuel (d :: cs4)
          else if c = '[' then
            match skipWs cs2 with
            | [] => none
            | d :: cs4 =>
                if d = ']' then some cs4
                else parseElems fuel (d :: cs4)
          else if c = 't' then expectChars ['r', 'u', 'e'] cs2
          else if c = 'f' then expectChars ['a', 'l', 's', 'e'] cs2
          else if c = 'n' then expectChars ['u', 'l', 'l'] cs2
          else if c = '-' || c.isDigit then parseNumber cs
          else none

/-- Consume the members of a JSON object after `{`, input starting at the
first member's opening quote; consumes the closing brace. -/
def parseMembers : Nat → List Char → Option (List Char)
  | 0, _ => none
  | fuel + 1, cs =>
      match cs with
      | [] => none
      | c :: cs2 =>
          if c = '"' then
            match parseStringBody cs2 with
            | none => none
            | some cs3 =>
                match skipWs cs3 with
                | [] => none
                | d :: cs4 =>
                    if d = ':' then
                      match parseValue fuel (skipWs cs4) with
                      | none => none
                      | some cs5 =>
                          match skipWs cs5 with
                          | [] => none
                          | e :: cs6 =>
                              if e = ',' then parseMembers fuel (skipWs cs6)
                              else if e = rbrace then some cs6
                              else none
                    else none
          else none

/-- Consume the elements of a JSON array after `[`, input starting at the
first element; consumes the closing bracket. -/
def parseElems : Nat → List Char → Option (List Char)
  | 0, _ => none
  | fuel + 1, cs =>
      match parseValue fuel cs with
      | none => none
      | some cs2 =>
          match skipWs cs2 with
          | [] => none
          | e :: cs3 =>
              if e = ',' then parseElems fuel (skipWs cs3)
              else if e = ']' then some cs3
              else none

end

/-- Modelled from the spec: whether a string is one well-formed JSON
document, as required of the optional third plugin-spec segment. -/
def isValidJson (s : String) : Bool :=
  match parseValue (4 * (s.data.length + 1)) (skipWs s.data) with
  | some rest => (skipWs rest).isEmpty
  | none => false

/-! ### PluginSpec and its parser (pkg/bbr/config)

Modelled from the spec: the code of pkg/bbr/config (type `BBRPluginSpecs`
with its flag-value `Set` method and the `type:name[:json]` parser) is not
among the provided sources; only its declaration site (the `--plugin` flag
binding in options.go) is.  The definitions below follow section 4.1/4.2 of
the spec: split on at most the first two colons; missing-type error on an
empty string or an empty first segment; missing-name error when no
(non-empty) second segment is present; the remainder after the second colon
is one JSON document, never re-split; errors retain the raw input. -/

structure PluginSpec where
  /-- The spec's `Type` field (Lean reserves the word `Type`). -/
  type : String
  name : String
  /-- The spec's optional `Parameters`: the raw JSON document of the third
  segment, absent for two-segment input. -/
  parameters : Option String
deriving DecidableEq, Repr

inductive ParseError where
  | missingType (raw : String)
  | missingName (raw : String)
  | invalidJSONParameters (raw : String)
deriving DecidableEq, Repr

/-- Split a character list at the first occurrence of `sep`: returns the
part before and the part after, or `none` when `sep` does not occur. -/
def splitFirst (sep : Char) : List Char → Option (List Char × List Char)
  | [] => none
  | c :: cs =>
      if c = sep then some ([], cs)
      else
        match splitFirst sep cs with
        | none => none
        | some (a, b) => some (c :: a, b)

/-- Modelled from the spec: parse one `--plugin` flag occurrence of the form
`type:name[:json]`. -/
def parsePluginSpec (raw : String) : Except ParseError PluginSpec :=
  match splitFirst ':' raw.data with
  | none =>
      if raw.data.isEmpty then Except.error (ParseError.missingType raw)
      else Except.error (ParseError.missingName raw)
  | some (t, rest) =>
      if t.isEmpty then Except.error (ParseError.missingType raw)
      else
        match splitFirst ':' rest with
        | none =>
            if rest.isEmpty then Except.error (ParseError.missingName raw)
            else Except.ok { type := String.mk t, name := String.mk rest, parameters := none }
        | some (n, js) =>
            if n.isEmpty then Except.error (ParseError.missingName raw)
            else if isValidJson (String.mk js) then
              Except.ok { type := String.mk t, name := String.mk n,
                          parameters := some (String.mk js) }
            else Except.error (ParseError.invalidJSONParameters raw)

/-- The ordered collection accumulated by the repeatable `--plugin` flag. -/
abbrev BBRPluginSpecs := List PluginSpec

/-- Modelled from the spec: the flag-value `Set` method.  The Go method
mutates its receiver and returns an `error`; here it returns the updated
sequence together with the error (`none` = nil). -/
def BBRPluginSpecs.Set (ps : BBRPluginSpecs) (raw : String) :
    BBRPluginSpecs × Option ParseError :=
  match parsePluginSpec raw with
  | Except.ok spec => (ps ++ [spec], none)
  | Except.error e => (ps, some e)

/-! ### Go errors and the Go `int8` conversion -/

/-- Go `error` values produced by this subsystem: the logging package's
sentinel `ErrInvalidLogVerbosity` (declared in the logging package outside
the provided sources, compared by identity in the tests) and values built by
`fmt.Errorf` in options.go, identified by their message. -/
inductive GoError where
  | invalidLogVerbosity
  | errorf (msg : String)
deriving DecidableEq, Repr

/-- The logging package's sentinel error (`err == ErrInvalidLogVerbosity`). -/
def ErrInvalidLogVerbosity : GoError := GoError.invalidLogVerbosity

/-- Go's `int8(n)` conversion of an `int`: two's-complement truncation to
8 bits, exactly `zapcore.Level(int8(lvl))` in logging's Complete. -/
def int8 (n : Int) : Int := (n + 128) % 256 - 128

end BBR

namespace logging

open BBR

/-- `zap-log-level`, the flag name consulted by `Complete`. -/
def ZapLogLevelFlagName : String := "zap-log-level"

/-- One pflag `Flag`, restricted to the field the source reads and writes. -/
structure Flag where
  Changed : Bool
deriving DecidableEq, Repr

/-- A pflag `FlagSet`, restricted to what the source consults: the result of
looking up the zap-log-level flag (`none` models a nil `*Flag`). -/
structure FlagSet where
  zapLogLevelFlag : Option Flag
deriving DecidableEq, Repr

/-- `FlagSet.Lookup`: only the zap-log-level flag is ever looked up here. -/
def FlagSet.Lookup (fs : FlagSet) (flagName : String) : Option Flag :=
  if flagName = ZapLogLevelFlagName then fs.zapLogLevelFlag else none

/-- `sigs.k8s.io/controller-runtime/pkg/log/zap.Options`, restricted to the
fields the source touches.  `Level` is Go's `LevelEnabler` interface value:
`none` models nil, `some l` models `uberzap.NewAtomicLevelAt(zapcore.Level l)`
(or an explicitly bound level). -/
structure ZapOptions where
  Development : Bool
  Level : Option Int
deriving DecidableEq, Repr

/-- The logging package's verbosity constant `DEFAULT` (declared in the
logging package outside the provided sources; its exact numeric value is
never used by the properties below, which reference it symbolically). -/
def DEFAULT : Int := 2

/-- `logging.Options`: LogVerbosity, ZapOptions, and the internal flag-set
back-reference set by AddFlags (`none` models the nil pointer of a fresh
options struct). -/
structure Options where
  LogVerbosity : Int
  ZapOptions : ZapOptions
  fs : Option FlagSet
deriving DecidableEq, Repr

/-- `logging.NewOptions`: defaults. -/
def NewOptions : Options :=
  { LogVerbosity := DEFAULT
    ZapOptions := { Development := true, Level := none }
    fs := none }

/-- `logging.Options.Complete`: derives the zap log level from `-v` when
`--zap-log-level` was not set explicitly.  Returns `none` for the nil
pointer dereference that `opts.fs.Lookup` performs when AddFlags never ran;
otherwise returns the updated options and the (always nil) error. -/
def Options.Complete (opts : Options) : Option (Options × Option GoError) :=
  match opts.fs with
  | none => none
  | some fs =>
      match fs.Lookup ZapLogLevelFlagName with
      | some flag =>
          if !flag.Changed then
            let lvl : Int := -1 * opts.LogVerbosity
            some ({ opts with
                      ZapOptions := { opts.ZapOptions with Level := some (int8 lvl) }
                      fs := some { fs with zapLogLevelFlag := some { flag with Changed := true } } },
                  none)
          else some (opts, none)
      | none => some (opts, none)

/-- `logging.Options.Validate`, with the possibly-mutated receiver returned
explicitly (the body never writes a field, which the frame theorem below
makes explicit). -/
def Options.ValidateS (opts : Options) : Options × Option GoError :=
  if opts.LogVerbosity < 0 then (opts, some ErrInvalidLogVerbosity)
  else (opts, none)

/-- The error component of `logging.Options.Validate`. -/
def Options.Validate (opts : Options) : Option GoError := (opts.ValidateS).2

end logging

namespace server

open BBR

def DefaultGrpcPort : Int := 9004

def DefaultGrpcHealthPort : Int := 9005

/-- `server.Options` from pkg/bbr/server/options.go.  In Go the embedded
`logging.Options` field is itself named `Options`; that name collides with
the structure's own name in Lean, so the field is called `LoggingOptions`
here. -/
structure Options where
  GRPCPort : Int
  Streaming : Bool
  LoggingOptions : logging.Options
  MetricsPort : Int
  GRPCHealthPort : Int
  EnablePprof : Bool
  SecureServing : Bool
  MetricsEndpointAuth : Bool
  PluginSpecs : BBRPluginSpecs
deriving DecidableEq, Repr

/-- `server.NewOptions`: the defaults of the composite literal; fields the
literal omits (`Streaming`, `PluginSpecs`) get their Go zero values. -/
def NewOptions : Options :=
  { GRPCPort := DefaultGrpcPort
    GRPCHealthPort := DefaultGrpcHealthPort
    LoggingOptions := logging.NewOptions
    MetricsPort := 9090
    EnablePprof := true
    SecureServing := true
    MetricsEndpointAuth := true
    Streaming := false
    PluginSpecs := [] }

/-- `server.Options.Complete`: delegates to the embedded logging options. -/
def Options.Complete (opts : Options) : Option (Options × Option GoError) :=
  match opts.LoggingOptions.Complete with
  | none => none
  | some (l, e) => some ({ opts with LoggingOptions := l }, e)

/-- The message of the port-range `fmt.Errorf` in Validate (`%d` and `%q`). -/
def portRangeMsg (port : Int) (flagName : String) : String :=
  "invalid value " ++ toString port ++ " for flag \"" ++ flagName ++
    "\": must be between 1 and 65535"

def portRangeError (port : Int) (flagName : String) : GoError :=
  GoError.errorf (portRangeMsg port flagName)

/-- The message of the port-conflict `fmt.Errorf` in Validate. -/
def portConflictMsg (g h m : Int) : String :=
  "port conflict: grpc-port (" ++ toString g ++ "), grpc-health-port (" ++
    toString h ++ "), and metrics-port (" ++ toString m ++
    ") must all be different"

def portConflictError (g h m : Int) : GoError :=
  GoError.errorf (portConflictMsg g h m)

/-- The `for _, pc := range [...]` loop of Validate: first port outside
`[1, 65535]`, in slice order, yields the range error. -/
def firstPortError : List (String × Int) → Option GoError
  | [] => none
  | (flagName, port) :: rest =>
      if port < 1 ∨ port > 65535 then some (portRangeError port flagName)
      else firstPortError rest

/-- `server.Options.Validate`, with the possibly-mutated receiver returned
explicitly.  The collision check builds the Go map literal keyed by the
three ports; its `len` is the number of distinct ports, i.e. the length of
the deduplicated key list. -/
def Options.ValidateS (opts : Options) : Options × Option GoError :=
  match firstPortError
      [("grpc-port", opts.GRPCPort), ("grpc-health-port", opts.GRPCHealthPort),
       ("metrics-port", opts.MetricsPort)] with
  | some e => (opts, some e)
  | none =>
      if ([opts.GRPCPort, opts.GRPCHealthPort, opts.MetricsPort].dedup).length < 3 then
        (opts, some (portConflictError opts.GRPCPort opts.GRPCHealthPort opts.MetricsPort))
      else
        match opts.LoggingOptions.ValidateS with
        | (l, e) => ({ opts with LoggingOptions := l }, e)

/-- The error component of `server.Options.Validate`. -/
def Options.Validate (opts : Options) : Option GoError := (opts.ValidateS).2

end server

/-! ### Helper lemmas -/

theorem string_data_append (s t : String) : (s ++ t).data = s.data ++ t.data := rfl

theorem string_mk_data (s : String) : String.mk s.data = s := rfl

theorem splitFirst_not_mem (sep : Char) (l : List Char) (h : sep ∉ l) :
    BBR.splitFirst sep l = none := by
  induction l with
  | nil => rfl
  | cons c cs ih =>
      have h1 : ¬ c = sep := fun hc => h (by simp [hc])
      have h2 : sep ∉ cs := fun hc => h (by simp [hc])
      simp [BBR.splitFirst, h1, ih h2]

theorem splitFirst_append (sep : Char) (l r : List Char) (h : sep ∉ l) :
    BBR.splitFirst sep (l ++ sep :: r) = some (l, r) := by
  induction l with
  | nil => simp [BBR.splitFirst]
  | cons c cs ih =>
      have h1 : ¬ c = sep := fun hc => h (by simp [hc])
      have h2 : sep ∉ cs := fun hc => h (by simp [hc])
      simp [BBR.splitFirst, h1, ih h2]

theorem logging_validateS_fst (lo : logging.Options) : (lo.ValidateS).1 = lo := by
  unfold logging.Options.ValidateS
  split <;> rfl

theorem dedup_three_length_lt (g h m : Int) :
    ((([g, h, m] : List Int).dedup).length < 3) ↔ (g = h ∨ g = m ∨ h = m) := by
  have hnd : ¬ ([g, h, m] : List Int).Nodup ↔ (g = h ∨ g = m ∨ h = m) := by
    simp [List.nodup_cons]
    tauto
  rw [← hnd]
  constructor
  · intro hlt hnodup
    rw [List.dedup_eq_self.2 hnodup] at hlt
    simp at hlt
  · intro hnodup
    rcases Nat.lt_or_ge ((([g, h, m] : List Int).dedup).length) 3 with hl | hl
    · exact hl
    · exfalso
      have hsub := ([g, h, m] : List Int).dedup_sublist
      have hlen : (([g, h, m] : List Int).dedup).length = 3 :=
        Nat.le_antisymm (by simpa using hsub.length_le) hl
      have heq := hsub.eq_of_length (by simpa using hlen)
      exact hnodup (heq ▸ (([g, h, m] : List Int).nodup_dedup))

/-! ### Claim theorems -/

/-- Claim C8: `server.NewOptions` returns GRPCPort 9004, GRPCHealthPort
9005, MetricsPort 9090, Streaming false, SecureServing true, EnablePprof
true, MetricsEndpointAuth true, and embedded logging options with verbosity
`DEFAULT` and a development-mode backend. -/
theorem newOptions_defaults :
    server.NewOptions.GRPCPort = 9004 ∧
    server.NewOptions.GRPCHealthPort = 9005 ∧
    server.NewOptions.MetricsPort = 9090 ∧
    server.NewOptions.Streaming = false ∧
    server.NewOptions.SecureServing = true ∧
    server.NewOptions.EnablePprof = true ∧
    server.NewOptions.MetricsEndpointAuth = true ∧
    server.NewOptions.LoggingOptions.LogVerbosity = logging.DEFAULT ∧
    server.NewOptions.LoggingOptions.ZapOptions.Development = true := by
  refine ⟨rfl, rfl, rfl, rfl, rfl, rfl, rfl, rfl, rfl⟩

/-- Claim C10: both Validate methods are pure checks: whatever the verdict,
the receiver they return is the one they were given, so every field of the
options struct is unchanged after the call. -/
theorem validate_is_pure (s : server.Options) (lo : logging.Options) :
    (s.ValidateS).1 = s ∧ (lo.ValidateS).1 = lo := by
  refine ⟨?_, logging_validateS_fst lo⟩
  unfold server.Options.ValidateS
  cases hf : server.firstPortError
      [("grpc-port", s.GRPCPort), ("grpc-health-port", s.GRPCHealthPort),
       ("metrics-port", s.MetricsPort)] with
  | some e => simp [hf]
  | none =>
      simp only [hf]
      split
      · rfl
      · show ({ s with LoggingOptions := (s.LoggingOptions.ValidateS).1 }, _).1 = s
        rw [logging_validateS_fst]

/-- Claim C7: logging Validate returns the sentinel `ErrInvalidLogVerbosity`
exactly when verbosity is negative and succeeds for verbosity zero or
positive; and when a server.Options' ports pass both the range and the
collision check, server Validate returns the logging error unchanged. -/
theorem validate_verbosity_sentinel (lo : logging.Options) (s : server.Options)
    (hg1 : 1 ≤ s.GRPCPort) (hg2 : s.GRPCPort ≤ 65535)
    (hh1 : 1 ≤ s.GRPCHealthPort) (hh2 : s.GRPCHealthPort ≤ 65535)
    (hm1 : 1 ≤ s.MetricsPort) (hm2 : s.MetricsPort ≤ 65535)
    (hgh : s.GRPCPort ≠ s.GRPCHealthPort) (hgm : s.GRPCPort ≠ s.MetricsPort)
    (hhm : s.GRPCHealthPort ≠ s.MetricsPort) :
    (lo.Validate = some BBR.ErrInvalidLogVerbosity ↔ lo.LogVerbosity < 0) ∧
    (0 ≤ lo.LogVerbosity → lo.Validate = none) ∧
    s.Validate = s.LoggingOptions.Validate := by
  have hfp : server.firstPortError
      [("grpc-port", s.GRPCPort), ("grpc-health-port", s.GRPCHealthPort),
       ("metrics-port", s.MetricsPort)] = none := by
    have h1 : ¬ (s.GRPCPort < 1 ∨ s.GRPCPort > 65535) := by omega
    have h2 : ¬ (s.GRPCHealthPort < 1 ∨ s.GRPCHealthPort > 65535) := by omega
    have h3 : ¬ (s.MetricsPort < 1 ∨ s.MetricsPort > 65535) := by omega
    simp [server.firstPortError, h1, h2, h3]
  have hdd : ¬ (([s.GRPCPort, s.GRPCHealthPort, s.MetricsPort].dedup).length < 3) := by
    rw [dedup_three_length_lt]
    tauto
  refine ⟨?_, ?_, ?_⟩
  · by_cases hv : lo.LogVerbosity < 0 <;>
      simp [logging.Options.Validate, logging.Options.ValidateS, hv]
  · intro h0
    have hv : ¬ lo.LogVerbosity < 0 := by omega
    simp [logging.Options.Validate, logging.Options.ValidateS, hv]
  · unfold server.Options.Validate server.Options.ValidateS
    simp only [hfp]
    rw [if_neg hdd]
    rcases hv : s.LoggingOptions.ValidateS with ⟨l, e⟩
    simp [logging.Options.Validate, hv]

/-- Witness for C7 at verbosity -1 (collision-free default ports): logging
Validate yields the sentinel and server Validate passes it through. -/
theorem validate_verbosity_sentinel_witness :
    ({ server.NewOptions with
        LoggingOptions := { logging.NewOptions with LogVerbosity := -1 } } :
      server.Options).Validate = some BBR.ErrInvalidLogVerbosity := by
  have h := validate_verbosity_sentinel
      { logging.NewOptions with LogVerbosity := -1 }
      { server.NewOptions with
          LoggingOptions := { logging.NewOptions with LogVerbosity := -1 } }
      (by decide) (by decide) (by decide) (by decide) (by decide) (by decide)
      (by decide) (by decide) (by decide)
  rw [h.2.2]
  exact (h.1).2 (by decide)

/-- Claim C9: once AddFlags has populated the flag-set reference, logging
Complete always returns a nil error, and server Complete, which only
delegates to it, does too. -/
theorem complete_never_fails (s : server.Options) (fs : logging.FlagSet)
    (hfs : s.LoggingOptions.fs = some fs) :
    (∃ l, s.LoggingOptions.Complete = some (l, none)) ∧
    (∃ s2, s.Complete = some (s2, none)) := by
  have hl : ∃ l, s.LoggingOptions.Complete = some (l, none) := by
    unfold logging.Options.Complete
    rw [hfs]
    cases hlk : fs.Lookup logging.ZapLogLevelFlagName with
    | none => simp only [hlk]; exact ⟨_, rfl⟩
    | some flag =>
        cases hc : flag.Changed with
        | false => simp only [hlk, hc]; exact ⟨_, rfl⟩
        | true => simp only [hlk, hc]; exact ⟨_, rfl⟩
  obtain ⟨l, hl2⟩ := hl
  refine ⟨⟨l, hl2⟩, ⟨{ s with LoggingOptions := l }, ?_⟩⟩
  unfold server.Options.Complete
  rw [hl2]

/-- Witness for C9 at a concrete options value whose flag-set reference is
populated. -/
theorem complete_never_fails_witness :
    (∃ l, ({ server.NewOptions with
        LoggingOptions := { logging.NewOptions with
          fs := some { zapLogLevelFlag := some { Changed := false } } } } :
        server.Options).LoggingOptions.Complete = some (l, none)) ∧
    (∃ s2, ({ server.NewOptions with
        LoggingOptions := { logging.NewOptions with
          fs := some { zapLogLevelFlag := some { Changed := false } } } } :
        server.Options).Complete = some (s2, none)) :=
  complete_never_fails _ _ rfl

/-- Claim C1, counterexample: with verbosity 200 and the zap-log-level flag
present and not user-set, Complete stores backend level 56 — the Go int8
truncation of -1 * 200 — not -200, because zapcore.Level is an int8. -/
theorem complete_level_truncation_counterexample :
    (logging.Options.Complete
        { LogVerbosity := 200, ZapOptions := { Development := true, Level := none },
          fs := some { zapLogLevelFlag := some { Changed := false } } }) =
      some ({ LogVerbosity := 200,
              ZapOptions := { Development := true, Level := some 56 },
              fs := some { zapLogLevelFlag := some { Changed := true } } }, none) ∧
    (some (56 : Int) ≠ some (-1 * (200 : Int))) := by
  exact ⟨by decide, by decide⟩

/-- Claim C1 (amended): when the zap-log-level flag is present and was not
set by the user, Complete sets the backend level to the Go int8 conversion
of -1 * verbosity — equal to -1 * verbosity whenever that product fits in an
int8, in particular -3 for verbosity 3 — marks the flag as changed, and
returns a nil error. -/
theorem complete_derives_level (opts : logging.Options) (fs : logging.FlagSet)
    (flag : logging.Flag) (hfs : opts.fs = some fs)
    (hflag : fs.zapLogLevelFlag = some flag) (hch : flag.Changed = false) :
    opts.Complete = some
      ({ opts with
          ZapOptions := { opts.ZapOptions with
            Level := some (BBR.int8 (-1 * opts.LogVerbosity)) }
          fs := some { fs with zapLogLevelFlag := some { flag with Changed := true } } },
        none) ∧
    (-128 ≤ -1 * opts.LogVerbosity → -1 * opts.LogVerbosity ≤ 127 →
      BBR.int8 (-1 * opts.LogVerbosity) = -1 * opts.LogVerbosity) := by
  constructor
  · unfold logging.Options.Complete
    rw [hfs]
    simp [logging.FlagSet.Lookup, logging.ZapLogLevelFlagName, hflag, hch]
  · intro h1 h2
    unfold BBR.int8
    omega

/-- Witness for C1 (amended) at verbosity 3: the derived backend level is
-3 and the flag is marked changed. -/
theorem complete_derives_level_witness :
    logging.Options.Complete
        { LogVerbosity := 3, ZapOptions := { Development := true, Level := none },
          fs := some { zapLogLevelFlag := some { Changed := false } } } =
      some ({ LogVerbosity := 3,
              ZapOptions := { Development := true, Level := some (-3) },
              fs := some { zapLogLevelFlag := some { Changed := true } } }, none) := by
  have h := complete_derives_level
      { LogVerbosity := 3, ZapOptions := { Development := true, Level := none },
        fs := some { zapLogLevelFlag := some { Changed := false } } }
      { zapLogLevelFlag := some { Changed := false } }
      { Changed := false } rfl rfl rfl
  rw [h.1]
  decide

/-- Claim C2: when the user explicitly set zap-log-level, Complete returns
the options unchanged — the backend level keeps its explicit value and the
verbosity derivation is skipped, for every verbosity. -/
theorem complete_explicit_wins (opts : logging.Options) (fs : logging.FlagSet)
    (flag : logging.Flag) (hfs : opts.fs = some fs)
    (hflag : fs.zapLogLevelFlag = some flag) (hch : flag.Changed = true) :
    opts.Complete = some (opts, none) := by
  unfold logging.Options.Complete
  rw [hfs]
  simp [logging.FlagSet.Lookup, logging.ZapLogLevelFlagName, hflag, hch]

/-- Witness for C2: verbosity 5 with an explicitly set backend level (info,
numeric level 0) keeps the explicit level. -/
theorem complete_explicit_wins_witness :
    logging.Options.Complete
        { LogVerbosity := 5, ZapOptions := { Development := true, Level := some 0 },
          fs := some { zapLogLevelFlag := some { Changed := true } } } =
      some ({ LogVerbosity := 5,
              ZapOptions := { Development := true, Level := some 0 },
              fs := some { zapLogLevelFlag := some { Changed := true } } }, none) :=
  complete_explicit_wins _ _ _ rfl rfl rfl

theorem isEmpty_false_of_ne (l : List Char) (h : l ≠ []) : l.isEmpty = false := by
  cases l with
  | nil => exact absurd rfl h
  | cons a t => rfl

/-- Claim C3: with all three ports in [1, 65535], Validate fails with the
collision error — whose message names all three port values — whenever any
two ports coincide, and succeeds when the three are pairwise distinct and
verbosity is non-negative (in particular for ports 9004, 9005, 9090). -/
theorem validate_port_collision (s : server.Options)
    (hg1 : 1 ≤ s.GRPCPort) (hg2 : s.GRPCPort ≤ 65535)
    (hh1 : 1 ≤ s.GRPCHealthPort) (hh2 : s.GRPCHealthPort ≤ 65535)
    (hm1 : 1 ≤ s.MetricsPort) (hm2 : s.MetricsPort ≤ 65535) :
    ((s.GRPCPort = s.GRPCHealthPort ∨ s.GRPCPort = s.MetricsPort ∨
        s.GRPCHealthPort = s.MetricsPort) →
      s.Validate = some (server.portConflictError s.GRPCPort s.GRPCHealthPort
        s.MetricsPort)) ∧
    (s.GRPCPort ≠ s.GRPCHealthPort → s.GRPCPort ≠ s.MetricsPort →
      s.GRPCHealthPort ≠ s.MetricsPort → 0 ≤ s.LoggingOptions.LogVerbosity →
      s.Validate = none) ∧
    (∃ p q r t : List Char,
      (server.portConflictMsg s.GRPCPort s.GRPCHealthPort s.MetricsPort).data =
        p ++ (toString s.GRPCPort).data ++ q ++ (toString s.GRPCHealthPort).data ++
          r ++ (toString s.MetricsPort).data ++ t) := by
  have hfp : server.firstPortError
      [("grpc-port", s.GRPCPort), ("grpc-health-port", s.GRPCHealthPort),
       ("metrics-port", s.MetricsPort)] = none := by
    have h1 : ¬ (s.GRPCPort < 1 ∨ s.GRPCPort > 65535) := by omega
    have h2 : ¬ (s.GRPCHealthPort < 1 ∨ s.GRPCHealthPort > 65535) := by omega
    have h3 : ¬ (s.MetricsPort < 1 ∨ s.MetricsPort > 65535) := by omega
    simp [server.firstPortError, h1, h2, h3]
  refine ⟨?_, ?_, ?_⟩
  · intro hcol
    unfold server.Options.Validate server.Options.ValidateS
    simp only [hfp]
    rw [if_pos ((dedup_three_length_lt _ _ _).2 hcol)]
  · intro h1 h2 h3 h0
    unfold server.Options.Validate server.Options.ValidateS
    simp only [hfp]
    rw [if_neg (by rw [dedup_three_length_lt]; tauto)]
    have hv : ¬ s.LoggingOptions.LogVerbosity < 0 := by omega
    simp [logging.Options.ValidateS, hv]
  · refine ⟨("port conflict: grpc-port (" : String).data,
        ("), grpc-health-port (" : String).data,
        ("), and metrics-port (" : String).data,
        (") must all be different" : String).data, ?_⟩
    simp [server.portConflictMsg, string_data_append, List.append_assoc]

/-- Witness for C3: the default ports 9004, 9005, 9090 (distinct, in range,
default verbosity) validate successfully. -/
theorem validate_port_collision_witness : server.NewOptions.Validate = none := by
  have h := validate_port_collision server.NewOptions (by decide) (by decide)
      (by decide) (by decide) (by decide) (by decide)
  exact h.2.1 (by decide) (by decide) (by decide) (by decide)

/-- Claim C4: a port outside [1, 65535] makes Validate fail with the range
error of the first out-of-range port in flag order grpc-port,
grpc-health-port, metrics-port — its message naming the flag and the
offending value — and neither the collision check nor the logging check is
reached (the verdict is the range error whatever the other fields hold). -/
theorem validate_port_range (s : server.Options) :
    ((s.GRPCPort < 1 ∨ s.GRPCPort > 65535) →
      s.Validate = some (server.portRangeError s.GRPCPort "grpc-port")) ∧
    (1 ≤ s.GRPCPort → s.GRPCPort ≤ 65535 →
      (s.GRPCHealthPort < 1 ∨ s.GRPCHealthPort > 65535) →
      s.Validate = some (server.portRangeError s.GRPCHealthPort "grpc-health-port")) ∧
    (1 ≤ s.GRPCPort → s.GRPCPort ≤ 65535 → 1 ≤ s.GRPCHealthPort →
      s.GRPCHealthPort ≤ 65535 → (s.MetricsPort < 1 ∨ s.MetricsPort > 65535) →
      s.Validate = some (server.portRangeError s.MetricsPort "metrics-port")) ∧
    (∀ p : Int, ∀ flagName : String, ∃ a b c : List Char,
      (server.portRangeMsg p flagName).data =
        a ++ (toString p).data ++ b ++ flagName.data ++ c) := by
  refine ⟨?_, ?_, ?_, ?_⟩
  · intro hout
    unfold server.Options.Validate server.Options.ValidateS
    simp [server.firstPortError, hout]
  · intro hg1 hg2 hout
    have h1 : ¬ (s.GRPCPort < 1 ∨ s.GRPCPort > 65535) := by omega
    unfold server.Options.Validate server.Options.ValidateS
    simp [server.firstPortError, h1, hout]
  · intro hg1 hg2 hh1 hh2 hout
    have h1 : ¬ (s.GRPCPort < 1 ∨ s.GRPCPort > 65535) := by omega
    have h2 : ¬ (s.GRPCHealthPort < 1 ∨ s.GRPCHealthPort > 65535) := by omega
    unfold server.Options.Validate server.Options.ValidateS
    simp [server.firstPortError, h1, h2, hout]
  · intro p flagName
    refine ⟨("invalid value " : String).data, (" for flag \"" : String).data,
        ("\": must be between 1 and 65535" : String).data, ?_⟩
    simp [server.portRangeMsg, string_data_append, List.append_assoc]

/-- Witness for C4: grpc-port 0 yields the grpc-port range error. -/
theorem validate_port_range_witness :
    ({ server.NewOptions with GRPCPort := 0 } : server.Options).Validate =
      some (server.portRangeError 0 "grpc-port") :=
  (validate_port_range _).1 (Or.inl (by decide))

/-- Claim C5: the plugin-spec parser splits on at most the first two colons:
"type:name" parses with Parameters absent, and "type:name:json" parses with
everything after the second colon — embedded colons included — kept as the
one JSON parameter blob, never re-split. -/
theorem parsePluginSpec_splits (t n j : String)
    (ht1 : t.data ≠ []) (ht2 : ':' ∉ t.data)
    (hn1 : n.data ≠ []) (hn2 : ':' ∉ n.data)
    (hj : BBR.isValidJson j = true) :
    BBR.parsePluginSpec (t ++ ":" ++ n) =
      Except.ok { type := t, name := n, parameters := none } ∧
    BBR.parsePluginSpec (t ++ ":" ++ n ++ ":" ++ j) =
      Except.ok { type := t, name := n, parameters := some j } := by
  have hc : (":" : String).data = [':'] := rfl
  have hd1 : (t ++ ":" ++ n).data = t.data ++ ':' :: n.data := by
    simp [string_data_append, hc]
  have hd2 : (t ++ ":" ++ n ++ ":" ++ j).data =
      t.data ++ ':' :: (n.data ++ ':' :: j.data) := by
    simp [string_data_append, hc]
  constructor
  · unfold BBR.parsePluginSpec
    rw [hd1, splitFirst_append _ _ _ ht2]
    simp [isEmpty_false_of_ne _ ht1, isEmpty_false_of_ne _ hn1,
      splitFirst_not_mem _ _ hn2, string_mk_data]
  · unfold BBR.parsePluginSpec
    rw [hd2, splitFirst_append _ _ _ ht2]
    simp [isEmpty_false_of_ne _ ht1, isEmpty_false_of_ne _ hn1,
      splitFirst_append _ _ _ hn2, string_mk_data, hj]

/-- Witness for C5: the spec's embedded-colon example parses with the whole
JSON blob intact, and the two-segment form parses with absent parameters. -/
theorem parsePluginSpec_splits_witness :
    BBR.parsePluginSpec "plugin:inst:\x7b\"a\":\"x:y\"\x7d" =
      Except.ok { type := "plugin", name := "inst",
                  parameters := some "\x7b\"a\":\"x:y\"\x7d" } ∧
    BBR.parsePluginSpec "plugin:inst" =
      Except.ok { type := "plugin", name := "inst", parameters := none } := by
  have h := parsePluginSpec_splits "plugin" "inst" "\x7b\"a\":\"x:y\"\x7d"
      (by decide) (by decide) (by decide) (by decide) (by decide)
  exact ⟨h.2, h.1⟩

/-- Claim C6: Set either appends exactly one parsed spec at the end of the
sequence with no error, or returns the parse error leaving the sequence
unchanged; successive successful Sets append in call order. -/
theorem pluginSpecs_set_appends (ps : BBR.BBRPluginSpecs) (raw raw2 : String) :
    ((∃ spec, BBR.parsePluginSpec raw = Except.ok spec ∧
        BBR.BBRPluginSpecs.Set ps raw = (ps ++ [spec], none)) ∨
      (∃ e, BBR.parsePluginSpec raw = Except.error e ∧
        BBR.BBRPluginSpecs.Set ps raw = (ps, some e))) ∧
    (∀ s1 s2, BBR.parsePluginSpec raw = Except.ok s1 →
      BBR.parsePluginSpec raw2 = Except.ok s2 →
      (BBR.BBRPluginSpecs.Set (BBR.BBRPluginSpecs.Set ps raw).1 raw2).1 =
        ps ++ [s1, s2]) := by
  constructor
  · cases h : BBR.parsePluginSpec raw with
    | ok spec => exact Or.inl ⟨spec, rfl, by simp [BBR.BBRPluginSpecs.Set, h]⟩
    | error e => exact Or.inr ⟨e, rfl, by simp [BBR.BBRPluginSpecs.Set, h]⟩
  · intro s1 s2 h1 h2
    simp [BBR.BBRPluginSpecs.Set, h1, h2]

/-- Witness for C6: Set "a:b" then Set "c:d" on the fresh collection yields
the two specs in call order. -/
theorem pluginSpecs_set_appends_witness :
    (BBR.BBRPluginSpecs.Set (BBR.BBRPluginSpecs.Set [] "a:b").1 "c:d").1 =
      [{ type := "a", name := "b", parameters := none },
       { type := "c", name := "d", parameters := none }] := by
  have h := (pluginSpecs_set_appends [] "a:b" "c:d").2
      { type := "a", name := "b", parameters := none }
      { type := "c", name := "d", parameters := none } (by rfl) (by rfl)
  simpa using h
